import Mathlib

/-!
Verification of the persistent poll-data cache layer (`src/cache_manager.py`,
class `PollDataCache` and the module-level fetch adapter
`cached_get_latest_polls_from_html`).

Shallow embedding conventions:

* Timestamps are `Int` seconds (the source stores `'%Y-%m-%d %H:%M:%S'`
  strings whose lexicographic order agrees with chronological order, and
  compares them against SQLite's `CURRENT_TIMESTAMP`, also whole seconds).
* A pandas `DataFrame` serialized via `to_json(orient='records')` is a list
  of uniform records; we model it as `List Row` where a `Row` is a list of
  named JSON values.  `DataFrame.empty` holds when there are no rows or no
  columns (columns = union of the row keys); serialization/deserialization
  of the record list round-trips and is modelled by the identity, so cache
  entries hold the record list directly.  The source's defensive branches
  for byte-level corruption of an individual `data_json` cell (empty string,
  undecodable JSON) concern states that this structured representation
  cannot express and have no counterpart here.
* `_generate_cache_key` hashes `f"{url}:{json.dumps(params, sort_keys=True)}"`
  with SHA-256.  The digest function is kept as an explicit parameter
  (`generate_cache_key`); inside the store model the key of an entry is the
  pre-digest string `keyData url params`, an injective stand-in for the
  hex digest (the spec treats SHA-256 collisions as negligible and unhandled).
* The SQLite backing file is one of four logical states: `ok entries`
  (schema present), `corrupt` (bytes are not a SQLite database, the state
  produced by overwriting the file with arbitrary content), `missing`
  (no file on disk), `uninit` (an empty database file without the
  `poll_cache` table — `sqlite3.connect` creates such a file as a side
  effect when the path is missing).
* The retry loop for `database is locked` absorbs transient lock contention
  between concurrent processes; concurrency is outside a sequential shallow
  embedding, so each modelled operation is the source's single-attempt
  behaviour on the reachable file states above.
* The source calls `self._init_db()` in `get`, `set` and `_repair_database`,
  but the class only defines `_init_database`; that call therefore raises
  `AttributeError` at runtime.  The embedding reproduces the resulting
  behaviour faithfully (see `PollDataCache.repair_database`).
-/

/-- JSON-like scalar values appearing in parameter maps and data rows. -/
inductive JVal where
  | s (v : String)
  | n (v : Int)
  | b (v : Bool)
deriving DecidableEq, Repr

/-- A parameter map (Python dict) as an association list. -/
abbrev Params := List (String × JVal)

/-- One record of a DataFrame serialized with `orient='records'`. -/
abbrev Row := List (String × JVal)

/-- Ordering of parameter entries by key, as produced by
`json.dumps(params, sort_keys=True)`. -/
def keyLE (a b : String × JVal) : Prop := a.1 ≤ b.1

instance : DecidableRel keyLE := fun a b => inferInstanceAs (Decidable (a.1 ≤ b.1))

instance : IsTotal (String × JVal) keyLE := ⟨fun a b => le_total a.1 b.1⟩

instance : IsTrans (String × JVal) keyLE := ⟨fun _ _ _ h1 h2 => le_trans h1 h2⟩

/-- Parameter entries sorted by key (the `sort_keys=True` canonicalization). -/
def sortParams (ps : Params) : Params := List.insertionSort keyLE ps

/-- Rendering of a scalar value in the canonical JSON dump (string escaping
of exotic characters is irrelevant to the claims and elided). -/
def dumpVal : JVal → String
  | JVal.s v => "\"" ++ v ++ "\""
  | JVal.n v => toString v
  | JVal.b true => "true"
  | JVal.b false => "false"

/-- Rendering of one `"key": value` member of the canonical JSON dump. -/
def dumpPair (p : String × JVal) : String := "\"" ++ p.1 ++ "\": " ++ dumpVal p.2

/-- Canonical serialization `json.dumps(params, sort_keys=True)`. -/
def dumpParams (ps : Params) : String :=
  "\x7b" ++ String.intercalate ", " ((sortParams ps).map dumpPair) ++ "\x7d"

/-- The digest input `f"{url}:{param_str}"` of `_generate_cache_key`; also
used directly as the entry key inside the store model (injective stand-in
for its SHA-256 hex digest). -/
def keyData (url : String) (ps : Params) : String := url ++ ":" ++ dumpParams ps

/-- Embedding of `PollDataCache._generate_cache_key`, with the SHA-256 hex
digest abstracted as the explicit function argument `hash`. -/
def generate_cache_key (hash : String → String) (url : String) (ps : Params) : String :=
  hash (keyData url ps)

/-- Column set of a record list, as pandas infers it: the union of the keys
appearing in the rows. -/
def columnsOf (rows : List Row) : List String :=
  (rows.foldr (fun r acc => r.map Prod.fst ++ acc) []).dedup

/-- Embedding of `DataFrame.empty` for a frame built from a record list:
true when there are no rows or no columns. -/
def dfEmpty (rows : List Row) : Bool := rows.isEmpty || (columnsOf rows).isEmpty

/-- One row of the `poll_cache` table (the CacheEntry of the spec).
`data_rows` holds the decoded record list whose JSON text the source keeps
in the `data_json` column. -/
structure CacheEntry where
  cache_key : String
  data_rows : List Row
  url : String
  params_json : String
  created_at : Int
  expires_at : Int
  access_count : Nat
  last_accessed : Int
deriving DecidableEq, Repr

/-- Logical state of the SQLite backing file. -/
inductive DbFile where
  | ok (entries : List CacheEntry)
  | corrupt
  | missing
  | uninit
deriving DecidableEq, Repr

/-- State of a `PollDataCache` instance: the backing file plus the
in-memory fields set in `__init__` (`default_ttl`, `cache_hits`,
`cache_misses`). -/
structure CacheState where
  db : DbFile
  default_ttl : Int
  cache_hits : Nat
  cache_misses : Nat
deriving DecidableEq, Repr

namespace PollDataCache

/-- Embedding of `PollDataCache.get`.  Returns the retrieved payload (or
`none`) together with the successor state.  Behaviour by file state:
`missing` fails the `os.path.exists` check; `corrupt` raises
`sqlite3.DatabaseError: file is not a database` at the schema-validation
query, caught by the local `except sqlite3.Error` handler; `uninit` fails
the schema check and then raises `AttributeError` on `self._init_db()`,
caught by the outer `except Exception`.  All three return `None` without
touching either counter.  On an `ok` store the SQL lookup requires both the
key match and `expires_at > CURRENT_TIMESTAMP`; on a found row the access
statistics are updated first, and an empty decoded frame is rejected
afterwards (returning `None` with neither counter incremented). -/
def get (now : Int) (url : String) (ps : Params) (s : CacheState) :
    Option (List Row) × CacheState :=
  if url = "" then (none, s)
  else
    let key := keyData url ps
    match s.db with
    | DbFile.missing => (none, s)
    | DbFile.corrupt => (none, s)
    | DbFile.uninit => (none, s)
    | DbFile.ok entries =>
      match entries.find? (fun e => e.cache_key == key && decide (now < e.expires_at)) with
      | none => (none, { s with cache_misses := s.cache_misses + 1 })
      | some e =>
        let entries' := entries.map (fun x =>
          if x.cache_key == key then
            { x with access_count := x.access_count + 1, last_accessed := now }
          else x)
        if dfEmpty e.data_rows then
          (none, { s with db := DbFile.ok entries' })
        else
          (some e.data_rows, { s with db := DbFile.ok entries', cache_hits := s.cache_hits + 1 })

/-- Embedding of `PollDataCache.set`.  Validation: a falsy `url` or an empty
frame is rejected with `False` before any write; serialization of a
non-empty record list always yields non-empty JSON, so the
empty-serialization guard never fires.  `ttl = None` falls back to
`default_ttl`; there is no `ttl > 0` validation in the source.  On an `ok`
store, `INSERT OR REPLACE` installs a fresh row with
`expires_at = now + ttl`, `access_count = 0`, and both `created_at` and
`last_accessed` set to the write time.  On a `corrupt` file the first query
raises `sqlite3.DatabaseError: file is not a database`, whose handler only
repairs on the `malformed` message, so `set` returns `False` with the file
untouched.  On a `missing` path, `sqlite3.connect` creates an empty file,
the schema check fails, and `self._init_db()` raises `AttributeError` on
every retry, leaving an `uninit` file and returning `False`; likewise on an
already-`uninit` file. -/
def set (now : Int) (url : String) (rows : List Row) (ps : Params) (ttl : Option Int)
    (s : CacheState) : Bool × CacheState :=
  let ttlVal := ttl.getD s.default_ttl
  if url = "" then (false, s)
  else if dfEmpty rows then (false, s)
  else
    let key := keyData url ps
    match s.db with
    | DbFile.ok entries =>
      let entry : CacheEntry :=
        ⟨key, rows, url, dumpParams ps, now, now + ttlVal, 0, now⟩
      (true, { s with db := DbFile.ok (entry :: entries.filter (fun e => !(e.cache_key == key))) })
    | DbFile.corrupt => (false, s)
    | DbFile.missing => (false, { s with db := DbFile.uninit })
    | DbFile.uninit => (false, s)

/-- Embedding of `PollDataCache.invalidate`.  Mode selection follows the
source's Python truthiness tests: `if url and params is not None` (an empty
`url` string is falsy and routes to delete-all), `elif url`, else
delete-all.  Returns the SQLite `rowcount` of the `DELETE`.  Any exception
(corrupt file, missing table) is caught and reported as `0`; connecting to
a missing path creates an empty file before the `DELETE` fails. -/
def invalidate (url : Option String) (ps : Option Params) (s : CacheState) :
    Nat × CacheState :=
  match s.db with
  | DbFile.ok entries =>
    let urlTruthy : Bool := match url with
      | some u => !(u == "")
      | none => false
    match urlTruthy, url, ps with
    | true, some u, some p =>
      let key := keyData u p
      let remaining := entries.filter (fun e => !(e.cache_key == key))
      (entries.length - remaining.length, { s with db := DbFile.ok remaining })
    | true, some u, none =>
      let remaining := entries.filter (fun e => !(e.url == u))
      (entries.length - remaining.length, { s with db := DbFile.ok remaining })
    | _, _, _ =>
      (entries.length, { s with db := DbFile.ok [] })
  | DbFile.corrupt => (0, s)
  | DbFile.missing => (0, { s with db := DbFile.uninit })
  | DbFile.uninit => (0, s)

/-- Embedding of `PollDataCache.cleanup_expired`: deletes rows with
`expires_at <= CURRENT_TIMESTAMP` and returns the deleted `rowcount`;
failures (corrupt file, missing table) are caught and reported as `0`. -/
def cleanup_expired (now : Int) (s : CacheState) : Nat × CacheState :=
  match s.db with
  | DbFile.ok entries =>
    (entries.countP (fun e => decide (e.expires_at ≤ now)),
     { s with db := DbFile.ok (entries.filter (fun e => decide (now < e.expires_at))) })
  | DbFile.corrupt => (0, s)
  | DbFile.missing => (0, { s with db := DbFile.uninit })
  | DbFile.uninit => (0, s)

/-- Embedding of `PollDataCache._repair_database`.  The backup copy is
best-effort and leaves the logical state unchanged; `os.remove` then deletes
the backing file when present.  The subsequent `self._init_db()` call names
a method that does not exist on the class (the initializer is
`_init_database`), so it raises `AttributeError`, which the enclosing
`except Exception` turns into a `False` return — the store is never
recreated and repair never succeeds. -/
def repair_database (s : CacheState) : Bool × CacheState :=
  match s.db with
  | DbFile.missing => (false, s)
  | _ => (false, { s with db := DbFile.missing })

/-- Statistics snapshot assembled by `get_stats` (the `db_size` fields,
which read SQLite page pragmas, are opaque to the logical store and
omitted). -/
structure CacheStats where
  total_entries : Nat
  valid_entries : Nat
  expired_entries : Nat
  cache_hits : Nat
  cache_misses : Nat
  hit_rate : ℚ
deriving DecidableEq, Repr

/-- Embedding of `PollDataCache.get_stats`: counts total and expired rows,
derives `valid = total - expired`, and computes
`hit_rate = cache_hits / max(1, cache_hits + cache_misses)`.  Any database
exception is caught and an empty dict (`none` here) returned. -/
def get_stats (now : Int) (s : CacheState) : Option CacheStats × CacheState :=
  match s.db with
  | DbFile.ok entries =>
    let total := entries.length
    let expired := entries.countP (fun e => decide (e.expires_at ≤ now))
    (some ⟨total, total - expired, expired, s.cache_hits, s.cache_misses,
      (s.cache_hits : ℚ) / ((max 1 (s.cache_hits + s.cache_misses) : ℕ) : ℚ)⟩, s)
  | DbFile.corrupt => (none, s)
  | DbFile.missing => (none, { s with db := DbFile.uninit })
  | DbFile.uninit => (none, s)

end PollDataCache

/-- Outcome of one call to the external collaborator
`get_latest_polls_from_html` (which may raise on network/parse errors). -/
inductive FetchResult where
  | ok (rows : List Row)
  | err (msg : String)
deriving DecidableEq, Repr

/-- Embedding of the module-level adapter `cached_get_latest_polls_from_html`.
The cache parameters dict built from `(col_dict, n, allow_repeated_pollsters)`
is taken as the abstract `ps`.  The adapter first consults `cache.get`; on a
miss it runs the collaborator: on success it calls `cache.set`, ignoring the
returned success flag, and returns the fresh payload; the `except Exception`
around the fetch-and-store block converts a collaborator failure into a
logged `None` return. -/
def cached_get_latest_polls_from_html (now : Int) (url : String) (ps : Params)
    (ttl : Int) (fetch : FetchResult) (s : CacheState) :
    Option (List Row) × CacheState :=
  let r := PollDataCache.get now url ps s
  match r.1 with
  | some rows => (some rows, r.2)
  | none =>
    match fetch with
    | FetchResult.ok rows =>
      (some rows, (PollDataCache.set now url rows ps (some ttl) r.2).2)
    | FetchResult.err _ => (none, r.2)

/-! Concrete sample data used by the witness theorems. -/

/-- A one-row polling payload. -/
def sampleRows : List Row := [[("Con", JVal.n 25), ("Lab", JVal.n 45)]]

/-- A second, distinct payload. -/
def sampleRows2 : List Row := [[("Con", JVal.n 30), ("Lab", JVal.n 40)]]

/-- A live cache entry (expires at time 100). -/
def sampleEntryLive : CacheEntry :=
  ⟨keyData "https://x" [], sampleRows, "https://x", dumpParams [], 0, 100, 0, 0⟩

/-- An expired cache entry (expires at time 5, before the sample "now" of 10). -/
def sampleEntryExpired : CacheEntry :=
  ⟨keyData "https://y" [], sampleRows2, "https://y", dumpParams [], 0, 5, 0, 0⟩

/-- A working cache state holding one live and one expired entry, with one
recorded hit and one recorded miss. -/
def sampleOkState : CacheState :=
  ⟨DbFile.ok [sampleEntryLive, sampleEntryExpired], 3600, 1, 1⟩

/-- A cache state whose backing file holds arbitrary non-SQLite bytes. -/
def sampleCorruptState : CacheState := ⟨DbFile.corrupt, 3600, 2, 3⟩

/-- A working cache state with an empty store and zeroed counters. -/
def emptyOkState : CacheState := ⟨DbFile.ok [], 3600, 0, 0⟩

/-- Claim C1: the facade operations `get`, `set`, `invalidate` and
`cleanup_expired` never propagate an infrastructure error: with the backing
file replaced by arbitrary non-store content, `get` returns `none` rather
than raising, `set` returns a clean boolean failure, and `invalidate` and
`cleanup_expired` both return `0`.  (Each operation is a total function of
the embedded state; exceptions escaping the facade are unrepresentable.) -/
theorem facade_no_propagation_on_corruption
    (now now2 now3 : Int) (url url2 : String) (rows : List Row) (ps ps2 : Params)
    (ttl : Option Int) (iurl : Option String) (ips : Option Params)
    (s : CacheState) (h : s.db = DbFile.corrupt) :
    (PollDataCache.get now url ps s).1 = none ∧
    (PollDataCache.set now2 url2 rows ps2 ttl s).1 = false ∧
    (PollDataCache.invalidate iurl ips s).1 = 0 ∧
    (PollDataCache.cleanup_expired now3 s).1 = 0 := by
  obtain ⟨db, dttl, ch, cm⟩ := s
  simp only at h
  subst h
  refine ⟨?_, ?_, rfl, rfl⟩
  · unfold PollDataCache.get
    split <;> rfl
  · unfold PollDataCache.set
    split
    · rfl
    · split <;> rfl

/-- Witness for `facade_no_propagation_on_corruption` at a concrete corrupt
state. -/
theorem facade_no_propagation_on_corruption_witness :
    (PollDataCache.get 10 "https://x" [] sampleCorruptState).1 = none ∧
    (PollDataCache.set 10 "https://x" sampleRows [] (some 3600) sampleCorruptState).1 = false ∧
    (PollDataCache.invalidate (some "https://x") none sampleCorruptState).1 = 0 ∧
    (PollDataCache.cleanup_expired 10 sampleCorruptState).1 = 0 :=
  facade_no_propagation_on_corruption 10 10 10 "https://x" "https://x" sampleRows [] []
    (some 3600) (some "https://x") none sampleCorruptState rfl

/-- Claim C4: evaluation of the repair routine on a corrupted, writable
backing file.  `_repair_database` backs up the file (best effort), removes
the original, and then calls `self._init_db()` — a method that does not
exist on the class (the initializer is `_init_database`) — so the
`AttributeError` is swallowed and the routine returns `False`, leaving no
backing store at the original path instead of reinitializing a fresh empty
one and reporting success. -/
theorem repair_database_bug :
    PollDataCache.repair_database sampleCorruptState =
      (false, ⟨DbFile.missing, 3600, 2, 3⟩) := rfl

/-- Claim C9: whenever `get_stats` reports a snapshot after `H` hits and `M`
misses, the reported hit rate equals `H / (H + M)` (and `0` when
`H + M = 0`), and the valid and expired entry counts sum to the total. -/
theorem get_stats_consistency (now : Int) (s : CacheState)
    (entries : List CacheEntry) (st : PollDataCache.CacheStats)
    (hdb : s.db = DbFile.ok entries)
    (hst : (PollDataCache.get_stats now s).1 = some st) :
    (st.hit_rate = if s.cache_hits + s.cache_misses = 0 then 0
      else (s.cache_hits : ℚ) / ((s.cache_hits + s.cache_misses : ℕ) : ℚ)) ∧
    st.valid_entries + st.expired_entries = st.total_entries := by
  obtain ⟨db, dttl, H, M⟩ := s
  simp only at hdb
  subst hdb
  unfold PollDataCache.get_stats at hst
  simp only [Option.some.injEq] at hst
  subst hst
  constructor
  · by_cases h0 : H + M = 0
    · have hH : H = 0 := Nat.eq_zero_of_add_eq_zero_right h0
      simp [hH, h0]
    · have hmax : max 1 (H + M) = H + M := max_eq_right (Nat.one_le_iff_ne_zero.mpr h0)
      simp [h0, hmax]
  · exact Nat.sub_add_cancel (List.countP_le_length _)

/-- Witness for `get_stats_consistency` on a concrete state with one hit,
one miss, one live and one expired entry. -/
theorem get_stats_consistency_witness :
    (((PollDataCache.get_stats 10 sampleOkState).1.getD
        ⟨0, 0, 0, 0, 0, 0⟩).hit_rate =
      if sampleOkState.cache_hits + sampleOkState.cache_misses = 0 then 0
      else (sampleOkState.cache_hits : ℚ) /
        ((sampleOkState.cache_hits + sampleOkState.cache_misses : ℕ) : ℚ)) ∧
    ((PollDataCache.get_stats 10 sampleOkState).1.getD ⟨0, 0, 0, 0, 0, 0⟩).valid_entries +
      ((PollDataCache.get_stats 10 sampleOkState).1.getD ⟨0, 0, 0, 0, 0, 0⟩).expired_entries =
      ((PollDataCache.get_stats 10 sampleOkState).1.getD ⟨0, 0, 0, 0, 0, 0⟩).total_entries :=
  get_stats_consistency 10 sampleOkState
    [sampleEntryLive, sampleEntryExpired]
    ((PollDataCache.get_stats 10 sampleOkState).1.getD ⟨0, 0, 0, 0, 0, 0⟩)
    rfl rfl

/-! Claim C7: determinism of key derivation under parameter reordering. -/

/-- Strict key order on parameter entries. -/
def keyLT (a b : String × JVal) : Prop := a.1 < b.1

instance : IsAntisymm (String × JVal) keyLT :=
  ⟨fun _ _ h1 h2 => absurd h2 (lt_asymm h1)⟩

/-- A key-sorted list of pairs with duplicate-free keys is strictly sorted
by key. -/
theorem sorted_keyLT_of_sorted_keyLE {l : Params}
    (hs : List.Sorted keyLE l) (hn : (l.map Prod.fst).Nodup) :
    List.Sorted keyLT l := by
  have hne : l.Pairwise (fun a b : String × JVal => a.1 ≠ b.1) :=
    List.pairwise_map.mp hn
  exact (hs.and hne).imp (fun h => lt_of_le_of_ne h.1 h.2)

/-- Canonical sorting is invariant under permutation of a parameter map
with duplicate-free keys. -/
theorem sortParams_eq_of_perm (p1 p2 : Params) (hperm : List.Perm p1 p2)
    (hnd : (p1.map Prod.fst).Nodup) : sortParams p1 = sortParams p2 := by
  have hp1 : List.Perm (sortParams p1) p1 := List.perm_insertionSort keyLE p1
  have hp2 : List.Perm (sortParams p2) p2 := List.perm_insertionSort keyLE p2
  have hnd2 : (p2.map Prod.fst).Nodup := ((hperm.map Prod.fst).nodup_iff).mp hnd
  have hnd1' : ((sortParams p1).map Prod.fst).Nodup :=
    ((hp1.map Prod.fst).nodup_iff).mpr hnd
  have hnd2' : ((sortParams p2).map Prod.fst).Nodup :=
    ((hp2.map Prod.fst).nodup_iff).mpr hnd2
  exact List.eq_of_perm_of_sorted
    (hp1.trans (hperm.trans hp2.symm))
    (sorted_keyLT_of_sorted_keyLE (List.sorted_insertionSort keyLE p1) hnd1')
    (sorted_keyLT_of_sorted_keyLE (List.sorted_insertionSort keyLE p2) hnd2')

/-- Claim C7: key derivation is deterministic under parameter reordering —
for any digest function, any source identifier, and any two parameter maps
holding the same key/value pairs in any order (keys duplicate-free, as in a
Python dict), `_generate_cache_key` produces the same key. -/
theorem generate_cache_key_deterministic (hash : String → String) (url : String)
    (p1 p2 : Params) (hperm : List.Perm p1 p2) (hnd : (p1.map Prod.fst).Nodup) :
    generate_cache_key hash url p1 = generate_cache_key hash url p2 := by
  unfold generate_cache_key keyData dumpParams
  rw [sortParams_eq_of_perm p1 p2 hperm hnd]

/-- Witness for `generate_cache_key_deterministic` on two orderings of a
concrete two-entry parameter map. -/
theorem generate_cache_key_deterministic_witness :
    generate_cache_key (fun x => x) "https://x"
        [("n", JVal.n 5), ("allow_repeated_pollsters", JVal.b false)] =
      generate_cache_key (fun x => x) "https://x"
        [("allow_repeated_pollsters", JVal.b false), ("n", JVal.n 5)] :=
  generate_cache_key_deterministic (fun x => x) "https://x" _ _
    (List.Perm.swap _ _ _) (by decide)

/-! Claim C5: input validation in `set`. -/

/-- Claim C5, counterexample: `set` performs no `ttl > 0` validation — a
call with `ttl = -5` is accepted, returns `True`, and writes an entry whose
expiry (95) already precedes the write time (100). -/
theorem set_accepts_nonpositive_ttl :
    (PollDataCache.set 100 "https://x" sampleRows [] (some (-5)) emptyOkState).1 = true ∧
    (PollDataCache.set 100 "https://x" sampleRows [] (some (-5)) emptyOkState).2.db =
      DbFile.ok [⟨keyData "https://x" [], sampleRows, "https://x", dumpParams [],
        100, 95, 0, 100⟩] := by
  constructor <;> rfl

/-- Claim C5 (amended): `set` validates that the payload is non-empty,
returning `false` without writing; when `ttl` is unspecified the configured
default TTL is used; on success the stored expiry equals `now + ttl` — but
no `ttl > 0` validation is performed, so a non-positive supplied `ttl` is
accepted as-is (producing an already-expired entry). -/
theorem set_validation (now t : Int) (url : String) (rows : List Row) (ps : Params)
    (s : CacheState) (entries : List CacheEntry) :
    (dfEmpty rows = true →
      PollDataCache.set now url rows ps none s = (false, s) ∧
      PollDataCache.set now url rows ps (some t) s = (false, s)) ∧
    (url ≠ "" → dfEmpty rows = false → s.db = DbFile.ok entries →
      PollDataCache.set now url rows ps none s =
        (true, { s with
          db := DbFile.ok
              (⟨keyData url ps, rows, url, dumpParams ps, now, now + s.default_ttl, 0, now⟩ ::
                entries.filter (fun e => !(e.cache_key == keyData url ps))) }) ∧
      PollDataCache.set now url rows ps (some t) s =
        (true, { s with
          db := DbFile.ok
              (⟨keyData url ps, rows, url, dumpParams ps, now, now + t, 0, now⟩ ::
                entries.filter (fun e => !(e.cache_key == keyData url ps))) })) := by
  constructor
  · intro hempty
    constructor <;>
      · unfold PollDataCache.set
        rw [hempty]
        split <;> rfl
  · intro hurl hrows hdb
    obtain ⟨db, dttl, ch, cm⟩ := s
    simp only at hdb
    subst hdb
    constructor <;>
      · unfold PollDataCache.set
        rw [if_neg hurl, hrows]
        rfl

/-- Witness for `set_validation`: the empty payload is rejected without a
write, and a concrete `set` without an explicit TTL stores expiry
`now + default_ttl`. -/
theorem set_validation_witness :
    (PollDataCache.set 10 "https://x" [] [] none emptyOkState = (false, emptyOkState) ∧
     PollDataCache.set 10 "https://x" [] [] (some 7) emptyOkState = (false, emptyOkState)) ∧
    (PollDataCache.set 10 "https://x" sampleRows [] none emptyOkState =
      (true, { emptyOkState with
        db := DbFile.ok
            [⟨keyData "https://x" [], sampleRows, "https://x", dumpParams [],
              10, 10 + emptyOkState.default_ttl, 0, 10⟩] }) ∧
     PollDataCache.set 10 "https://x" sampleRows [] (some 7) emptyOkState =
      (true, { emptyOkState with
        db := DbFile.ok
            [⟨keyData "https://x" [], sampleRows, "https://x", dumpParams [],
              10, 10 + 7, 0, 10⟩] })) :=
  ⟨(set_validation 10 7 "https://x" [] [] emptyOkState []).1 rfl,
   (set_validation 10 7 "https://x" sampleRows [] emptyOkState []).2
     (by decide) rfl rfl⟩

/-! Claim C6: the fetch-and-cache adapter. -/

/-- Claim C6, counterexample: on a cache miss with a failing collaborator,
`cached_get_latest_polls_from_html` does not propagate the collaborator's
error — the `except Exception` block converts it into the same sentinel
`None` that an ordinary miss produces. -/
theorem cached_fetch_error_returns_sentinel :
    (cached_get_latest_polls_from_html 10 "https://x" [] 3600
      (FetchResult.err "network error") emptyOkState).1 = none := rfl

/-- Claim C6 (amended): on a cache miss followed by a successful external
fetch, the adapter returns the freshly fetched payload unconditionally —
whether or not the subsequent `set` succeeds — and on fetch failure it
catches the collaborator's error and returns `none` (the miss sentinel)
instead of propagating it. -/
theorem cached_fetch_behaviour (now : Int) (url : String) (ps : Params) (ttl : Int)
    (rows : List Row) (msg : String) (s : CacheState)
    (hmiss : (PollDataCache.get now url ps s).1 = none) :
    (cached_get_latest_polls_from_html now url ps ttl (FetchResult.ok rows) s).1
      = some rows ∧
    (cached_get_latest_polls_from_html now url ps ttl (FetchResult.err msg) s).1
      = none := by
  constructor <;> simp [cached_get_latest_polls_from_html, hmiss]

/-- Witness for `cached_fetch_behaviour` at a concrete empty cache, where
the stored payload is empty so the adapter's `cache.set` call fails, yet
the fetched payload is still returned. -/
theorem cached_fetch_behaviour_witness :
    (cached_get_latest_polls_from_html 10 "https://x" [] 3600
      (FetchResult.ok []) emptyOkState).1 = some [] ∧
    (cached_get_latest_polls_from_html 10 "https://x" [] 3600
      (FetchResult.err "parse error") emptyOkState).1 = none :=
  cached_fetch_behaviour 10 "https://x" [] 3600 [] "parse error" emptyOkState rfl

/-! Claim C3: hit/miss counter discipline of `get`. -/

/-- Claim C3, counterexample: with a corrupted backing file, `get` returns
absent, yet the miss counter is not incremented (it stays at the sample
state's value 3) — absences caused by infrastructure failures do not count
as misses. -/
theorem get_absent_without_miss_increment :
    (PollDataCache.get 10 "https://x" [] sampleCorruptState).1 = none ∧
    (PollDataCache.get 10 "https://x" [] sampleCorruptState).2.cache_misses = 3 ∧
    sampleCorruptState.cache_misses = 3 := by
  refine ⟨rfl, rfl, rfl⟩

/-! Evaluation lemmas for the facade operations, shared by the remaining
claims. -/

/-- Evaluation of a successful `set` on a working store. -/
theorem set_ok_eval (now : Int) (url : String) (rows : List Row) (ps : Params)
    (ttl : Option Int) (entries : List CacheEntry) (dttl : Int) (H M : Nat)
    (hurl : url ≠ "") (hrows : dfEmpty rows = false) :
    PollDataCache.set now url rows ps ttl ⟨DbFile.ok entries, dttl, H, M⟩ =
      (true, ⟨DbFile.ok
        (⟨keyData url ps, rows, url, dumpParams ps, now, now + ttl.getD dttl, 0, now⟩ ::
          entries.filter (fun e => !(e.cache_key == keyData url ps))), dttl, H, M⟩) := by
  unfold PollDataCache.set
  rw [if_neg hurl, hrows]
  rfl

/-- Evaluation of `get` on a working store whose lookup finds a live entry
with a non-empty payload. -/
theorem get_found (now : Int) (url : String) (ps : Params)
    (entries : List CacheEntry) (dttl : Int) (H M : Nat) (e : CacheEntry)
    (hurl : url ≠ "")
    (hfind : entries.find?
      (fun x => x.cache_key == keyData url ps && decide (now < x.expires_at)) = some e)
    (hne : dfEmpty e.data_rows = false) :
    PollDataCache.get now url ps ⟨DbFile.ok entries, dttl, H, M⟩ =
      (some e.data_rows,
       ⟨DbFile.ok (entries.map (fun x =>
          if x.cache_key == keyData url ps then
            { x with access_count := x.access_count + 1, last_accessed := now }
          else x)), dttl, H + 1, M⟩) := by
  unfold PollDataCache.get
  rw [if_neg hurl]
  simp only [hfind, hne]
  rfl

/-- Evaluation of `get` on a working store whose lookup finds a live entry
whose decoded frame is empty: the payload is rejected after the access
statistics update, with neither counter incremented. -/
theorem get_found_empty (now : Int) (url : String) (ps : Params)
    (entries : List CacheEntry) (dttl : Int) (H M : Nat) (e : CacheEntry)
    (hurl : url ≠ "")
    (hfind : entries.find?
      (fun x => x.cache_key == keyData url ps && decide (now < x.expires_at)) = some e)
    (hne : dfEmpty e.data_rows = true) :
    PollDataCache.get now url ps ⟨DbFile.ok entries, dttl, H, M⟩ =
      (none,
       ⟨DbFile.ok (entries.map (fun x =>
          if x.cache_key == keyData url ps then
            { x with access_count := x.access_count + 1, last_accessed := now }
          else x)), dttl, H, M⟩) := by
  unfold PollDataCache.get
  rw [if_neg hurl]
  simp only [hfind, hne]
  rfl

/-- Evaluation of `get` on a working store whose lookup finds no live
entry: a true miss, incrementing the miss counter. -/
theorem get_not_found (now : Int) (url : String) (ps : Params)
    (entries : List CacheEntry) (dttl : Int) (H M : Nat)
    (hurl : url ≠ "")
    (hfind : entries.find?
      (fun x => x.cache_key == keyData url ps && decide (now < x.expires_at)) = none) :
    PollDataCache.get now url ps ⟨DbFile.ok entries, dttl, H, M⟩ =
      (none, ⟨DbFile.ok entries, dttl, H, M + 1⟩) := by
  unfold PollDataCache.get
  rw [if_neg hurl]
  simp only [hfind]

/-- Evaluation of `get` on infrastructure-failure inputs: a corrupt,
missing or uninitialized backing file, or an invalid (empty) source
identifier.  The result is absent and the state — counters included — is
untouched. -/
theorem get_infra (now : Int) (url : String) (ps : Params) (s : CacheState)
    (h : s.db = DbFile.corrupt ∨ s.db = DbFile.missing ∨ s.db = DbFile.uninit ∨ url = "") :
    PollDataCache.get now url ps s = (none, s) := by
  obtain ⟨db, dttl, H, M⟩ := s
  rcases h with h | h | h | h
  · simp only at h
    subst h
    unfold PollDataCache.get
    split <;> rfl
  · simp only at h
    subst h
    unfold PollDataCache.get
    split <;> rfl
  · simp only at h
    subst h
    unfold PollDataCache.get
    split <;> rfl
  · unfold PollDataCache.get
    rw [if_pos h]

/-- Claim C2: round-trip — on a working store, for every non-empty payload,
valid source identifier and parameter map, `set` with `ttl = 3600` succeeds
and an immediate `get` with the same identifier and parameters returns a
payload structurally equal to the stored one. -/
theorem set_get_roundtrip (now : Int) (url : String) (rows : List Row) (ps : Params)
    (s : CacheState) (entries : List CacheEntry)
    (hurl : url ≠ "") (hrows : dfEmpty rows = false) (hdb : s.db = DbFile.ok entries) :
    (PollDataCache.set now url rows ps (some 3600) s).1 = true ∧
    (PollDataCache.get now url ps
      (PollDataCache.set now url rows ps (some 3600) s).2).1 = some rows := by
  obtain ⟨db, dttl, H, M⟩ := s
  simp only at hdb
  subst hdb
  rw [set_ok_eval now url rows ps (some 3600) entries dttl H M hurl hrows]
  refine ⟨rfl, ?_⟩
  have hpred : (fun x : CacheEntry =>
      x.cache_key == keyData url ps && decide (now < x.expires_at))
      ⟨keyData url ps, rows, url, dumpParams ps, now, now + (some (3600:Int)).getD dttl, 0, now⟩
      = true := by
    simp only [Option.getD_some, beq_self_eq_true, Bool.true_and, decide_eq_true_eq]
    omega
  rw [get_found now url ps _ dttl H M _ hurl (List.find?_cons_of_pos _ hpred) hrows]

/-- Witness for `set_get_roundtrip` at a concrete payload on an empty
working store. -/
theorem set_get_roundtrip_witness :
    (PollDataCache.set 10 "https://x" sampleRows [] (some 3600) emptyOkState).1 = true ∧
    (PollDataCache.get 10 "https://x" []
      (PollDataCache.set 10 "https://x" sampleRows [] (some 3600) emptyOkState).2).1 =
      some sampleRows :=
  set_get_roundtrip 10 "https://x" sampleRows [] emptyOkState []
    (by decide) (by decide) rfl

/-- Claim C10: a successful `set` on a key already holding a live entry
replaces every stored field: the row under that key afterwards is exactly
the fresh entry — payload, url, params digest, `created_at = now`,
`expires_at = now + ttl`, `access_count = 0` and `last_accessed` equal to
the write time — regardless of the prior entry's accumulated access count,
and the prior entry is no longer in the store. -/
theorem set_replaces_entry_and_resets_access_metadata
    (now t : Int) (url : String) (rows : List Row) (ps : Params)
    (s : CacheState) (entries : List CacheEntry) (prior : CacheEntry)
    (hurl : url ≠ "") (hrows : dfEmpty rows = false) (hdb : s.db = DbFile.ok entries)
    (hmem : prior ∈ entries) (hkey : prior.cache_key = keyData url ps)
    (hlive : now < prior.expires_at) :
    (PollDataCache.set now url rows ps (some t) s).1 = true ∧
    (PollDataCache.set now url rows ps (some t) s).2.db =
      DbFile.ok
        (⟨keyData url ps, rows, url, dumpParams ps, now, now + t, 0, now⟩ ::
          entries.filter (fun e => !(e.cache_key == keyData url ps))) ∧
    prior ∉ entries.filter (fun e => !(e.cache_key == keyData url ps)) := by
  obtain ⟨db, dttl, H, M⟩ := s
  simp only at hdb
  subst hdb
  rw [set_ok_eval now url rows ps (some t) entries dttl H M hurl hrows]
  refine ⟨rfl, rfl, ?_⟩
  intro hin
  have hcond := (List.mem_filter.mp hin).2
  rw [hkey] at hcond
  simp at hcond

/-- Witness for `set_replaces_entry_and_resets_access_metadata`: overwrite
a live entry that has accumulated an access count of 7. -/
theorem set_replaces_entry_and_resets_access_metadata_witness :
    (PollDataCache.set 10 "https://x" sampleRows2 [] (some 60)
      ⟨DbFile.ok [⟨keyData "https://x" [], sampleRows, "https://x", dumpParams [],
        0, 100, 7, 9⟩], 3600, 1, 1⟩).1 = true ∧
    (PollDataCache.set 10 "https://x" sampleRows2 [] (some 60)
      ⟨DbFile.ok [⟨keyData "https://x" [], sampleRows, "https://x", dumpParams [],
        0, 100, 7, 9⟩], 3600, 1, 1⟩).2.db =
      DbFile.ok
        (⟨keyData "https://x" [], sampleRows2, "https://x", dumpParams [],
          10, 10 + 60, 0, 10⟩ ::
          [⟨keyData "https://x" [], sampleRows, "https://x", dumpParams [],
            0, 100, 7, 9⟩].filter
              (fun e => !(e.cache_key == keyData "https://x" []))) ∧
    (⟨keyData "https://x" [], sampleRows, "https://x", dumpParams [],
      0, 100, 7, 9⟩ : CacheEntry) ∉
      [(⟨keyData "https://x" [], sampleRows, "https://x", dumpParams [],
        0, 100, 7, 9⟩ : CacheEntry)].filter
          (fun e => !(e.cache_key == keyData "https://x" [])) :=
  set_replaces_entry_and_resets_access_metadata 10 60 "https://x" sampleRows2 []
    _ _ _ (by decide) (by decide) rfl (List.mem_singleton.mpr rfl) rfl (by decide)

/-- Claim C3 (amended): the in-memory counters of `get` follow the store
lookup, not the returned value — an infrastructure failure (corrupt,
missing or uninitialized backing file, or invalid source identifier)
returns absent with both counters unchanged; a lookup finding no live entry
(true miss or expired entry) increments only the miss counter; a hit
returning a payload increments only the hit counter; and a found entry
whose decoded frame is empty returns absent with neither counter
changed. -/
theorem get_counter_discipline (now : Int) (url : String) (ps : Params)
    (s : CacheState) :
    ((s.db = DbFile.corrupt ∨ s.db = DbFile.missing ∨ s.db = DbFile.uninit ∨ url = "") →
      (PollDataCache.get now url ps s).1 = none ∧
      (PollDataCache.get now url ps s).2.cache_hits = s.cache_hits ∧
      (PollDataCache.get now url ps s).2.cache_misses = s.cache_misses) ∧
    (∀ entries, s.db = DbFile.ok entries → url ≠ "" →
      entries.find? (fun x => x.cache_key == keyData url ps &&
        decide (now < x.expires_at)) = none →
      (PollDataCache.get now url ps s).1 = none ∧
      (PollDataCache.get now url ps s).2.cache_misses = s.cache_misses + 1 ∧
      (PollDataCache.get now url ps s).2.cache_hits = s.cache_hits) ∧
    (∀ entries e, s.db = DbFile.ok entries → url ≠ "" →
      entries.find? (fun x => x.cache_key == keyData url ps &&
        decide (now < x.expires_at)) = some e →
      dfEmpty e.data_rows = false →
      (PollDataCache.get now url ps s).1 = some e.data_rows ∧
      (PollDataCache.get now url ps s).2.cache_hits = s.cache_hits + 1 ∧
      (PollDataCache.get now url ps s).2.cache_misses = s.cache_misses) ∧
    (∀ entries e, s.db = DbFile.ok entries → url ≠ "" →
      entries.find? (fun x => x.cache_key == keyData url ps &&
        decide (now < x.expires_at)) = some e →
      dfEmpty e.data_rows = true →
      (PollDataCache.get now url ps s).1 = none ∧
      (PollDataCache.get now url ps s).2.cache_hits = s.cache_hits ∧
      (PollDataCache.get now url ps s).2.cache_misses = s.cache_misses) := by
  refine ⟨?_, ?_, ?_, ?_⟩
  · intro h
    rw [get_infra now url ps s h]
    exact ⟨rfl, rfl, rfl⟩
  · intro entries hdb hurl hfind
    obtain ⟨db, dttl, H, M⟩ := s
    simp only at hdb
    subst hdb
    rw [get_not_found now url ps entries dttl H M hurl hfind]
    exact ⟨rfl, rfl, rfl⟩
  · intro entries e hdb hurl hfind hne
    obtain ⟨db, dttl, H, M⟩ := s
    simp only at hdb
    subst hdb
    rw [get_found now url ps entries dttl H M e hurl hfind hne]
    exact ⟨rfl, rfl, rfl⟩
  · intro entries e hdb hurl hfind hne
    obtain ⟨db, dttl, H, M⟩ := s
    simp only at hdb
    subst hdb
    rw [get_found_empty now url ps entries dttl H M e hurl hfind hne]
    exact ⟨rfl, rfl, rfl⟩

/-- Witness for `get_counter_discipline`: the corrupt-file case leaves the
counters at (2, 3); a lookup miss on the empty working store moves the miss
counter from 0 to 1; a hit on the sample store moves the hit counter from
1 to 2. -/
theorem get_counter_discipline_witness :
    ((PollDataCache.get 10 "https://x" [] sampleCorruptState).1 = none ∧
     (PollDataCache.get 10 "https://x" [] sampleCorruptState).2.cache_hits = 2 ∧
     (PollDataCache.get 10 "https://x" [] sampleCorruptState).2.cache_misses = 3) ∧
    ((PollDataCache.get 10 "https://x" [] emptyOkState).1 = none ∧
     (PollDataCache.get 10 "https://x" [] emptyOkState).2.cache_misses = 1 ∧
     (PollDataCache.get 10 "https://x" [] emptyOkState).2.cache_hits = 0) ∧
    ((PollDataCache.get 10 "https://x" [] sampleOkState).1 =
        some sampleEntryLive.data_rows ∧
     (PollDataCache.get 10 "https://x" [] sampleOkState).2.cache_hits = 2 ∧
     (PollDataCache.get 10 "https://x" [] sampleOkState).2.cache_misses = 1) :=
  ⟨(get_counter_discipline 10 "https://x" [] sampleCorruptState).1 (Or.inl rfl),
   (get_counter_discipline 10 "https://x" [] emptyOkState).2.1 [] rfl
     (by decide) rfl,
   (get_counter_discipline 10 "https://x" [] sampleOkState).2.2.1
     [sampleEntryLive, sampleEntryExpired] sampleEntryLive rfl
     (by decide) (by decide) (by decide)⟩

/-! Claim C8: correctness of the expiry sweep. -/

/-- When the keys of a list are duplicate-free, a search whose predicate
pins down the key of a member `e` that satisfies it returns exactly `e`. -/
theorem find?_eq_of_nodup_keys {l : List CacheEntry} {p : CacheEntry → Bool}
    {e : CacheEntry} (hnd : (l.map CacheEntry.cache_key).Nodup)
    (he : e ∈ l) (hpe : p e = true)
    (hkey : ∀ x, p x = true → x.cache_key = e.cache_key) :
    l.find? p = some e := by
  cases hfind : l.find? p with
  | none => exact absurd hpe (by simpa using List.find?_eq_none.mp hfind e he)
  | some x =>
    have hpx : p x = true := List.find?_some hfind
    have hmem : x ∈ l := List.mem_of_find?_eq_some hfind
    have : x = e :=
      List.inj_on_of_nodup_map hnd hmem he (hkey x hpx)
    rw [this]

/-- The rows surviving the expiry sweep number the original count minus the
swept count. -/
theorem length_filter_live (now : Int) (l : List CacheEntry) :
    (l.filter (fun e => decide (now < e.expires_at))).length =
      l.length - l.countP (fun e => decide (e.expires_at ≤ now)) := by
  induction l with
  | nil => rfl
  | cons a l ih =>
    have hle : l.countP (fun e => decide (e.expires_at ≤ now)) ≤ l.length :=
      List.countP_le_length _
    by_cases h : a.expires_at ≤ now
    · have h1 : decide (now < a.expires_at) = false := by
        simp [not_lt.mpr h]
      have h2 : decide (a.expires_at ≤ now) = true := by simp [h]
      simp only [List.filter_cons, List.countP_cons, h1, h2, Bool.false_eq_true,
        if_false, if_true, List.length_cons]
      omega
    · have h1 : decide (now < a.expires_at) = true := by
        simp [lt_of_not_le h]
      have h2 : decide (a.expires_at ≤ now) = false := by simp [h]
      simp only [List.filter_cons, List.countP_cons, h1, h2, Bool.false_eq_true,
        if_false, if_true, List.length_cons]
      omega

/-- Claim C8: on a working store with `N` entries of which exactly `K`
satisfy `expires_at ≤ now`, `cleanup_expired` returns `K`, retains exactly
the live entries (so `N − K` of them remain), and every retained entry is
still retrievable by a subsequent `get` before its expiry. -/
theorem cleanup_expired_correct (now : Int) (s : CacheState)
    (entries : List CacheEntry)
    (hdb : s.db = DbFile.ok entries)
    (hkeys : (entries.map CacheEntry.cache_key).Nodup) :
    (PollDataCache.cleanup_expired now s).1 =
      entries.countP (fun e => decide (e.expires_at ≤ now)) ∧
    (PollDataCache.cleanup_expired now s).2.db =
      DbFile.ok (entries.filter (fun e => decide (now < e.expires_at))) ∧
    (entries.filter (fun e => decide (now < e.expires_at))).length =
      entries.length - entries.countP (fun e => decide (e.expires_at ≤ now)) ∧
    (∀ e ∈ entries, ∀ (url : String) (ps2 : Params) (now2 : Int), url ≠ "" →
      e.cache_key = keyData url ps2 → now < e.expires_at → now2 < e.expires_at →
      dfEmpty e.data_rows = false →
      (PollDataCache.get now2 url ps2 (PollDataCache.cleanup_expired now s).2).1 =
        some e.data_rows) := by
  obtain ⟨db, dttl, H, M⟩ := s
  simp only at hdb
  subst hdb
  refine ⟨rfl, rfl, length_filter_live now entries, ?_⟩
  intro e hmem url ps2 now2 hurl hkeyeq hlive hlive2 hne
  have hmemf : e ∈ entries.filter (fun x => decide (now < x.expires_at)) :=
    List.mem_filter.mpr ⟨hmem, by simpa using hlive⟩
  have hndf : ((entries.filter (fun x => decide (now < x.expires_at))).map
      CacheEntry.cache_key).Nodup :=
    ((List.filter_sublist entries).map CacheEntry.cache_key).nodup hkeys
  have hpe : (fun x : CacheEntry => x.cache_key == keyData url ps2 &&
      decide (now2 < x.expires_at)) e = true := by
    simp only [Bool.and_eq_true, beq_iff_eq, decide_eq_true_eq]
    exact ⟨hkeyeq, hlive2⟩
  have huniq : ∀ x : CacheEntry,
      (x.cache_key == keyData url ps2 && decide (now2 < x.expires_at)) = true →
      x.cache_key = e.cache_key := by
    intro x hx
    simp only [Bool.and_eq_true, beq_iff_eq, decide_eq_true_eq] at hx
    rw [hx.1, hkeyeq]
  have hfind := find?_eq_of_nodup_keys (p := fun x : CacheEntry =>
      x.cache_key == keyData url ps2 && decide (now2 < x.expires_at))
    hndf hmemf hpe huniq
  show (PollDataCache.get now2 url ps2
    ⟨DbFile.ok (entries.filter (fun x => decide (now < x.expires_at))),
      dttl, H, M⟩).1 = some e.data_rows
  rw [get_found now2 url ps2 _ dttl H M e hurl hfind hne]

/-- Witness for `cleanup_expired_correct` on the sample store at `now = 10`:
the expired entry (expiry 5) is swept and counted, and the live entry
(expiry 100) remains retrievable at time 20. -/
theorem cleanup_expired_correct_witness :
    (PollDataCache.cleanup_expired 10 sampleOkState).1 =
      [sampleEntryLive, sampleEntryExpired].countP
        (fun e => decide (e.expires_at ≤ 10)) ∧
    (PollDataCache.get 20 "https://x" []
      (PollDataCache.cleanup_expired 10 sampleOkState).2).1 =
      some sampleEntryLive.data_rows :=
  ⟨(cleanup_expired_correct 10 sampleOkState [sampleEntryLive, sampleEntryExpired]
      rfl (by decide)).1,
   (cleanup_expired_correct 10 sampleOkState [sampleEntryLive, sampleEntryExpired]
      rfl (by decide)).2.2.2 sampleEntryLive (by decide) "https://x" [] 20
      (by decide) rfl (by decide) (by decide) (by decide)⟩
